import Mathlib

/-!
Verification of `python/imagej/FIBSEM/serial_section_registration.py` and
`python/imagej/IsoView-GCaMP/lib/isoview.py` against their natural-language
specification, via a shallow embedding of the scripts' logic in Lean.

External black boxes (the dense block matcher, the SIFT feature matcher and
the iterative tile optimizer kernel) enter the embedding as oracle
parameters; everything the scripts themselves compute (loop bounds, branch
conditions, file-path keys, persistence and error flow) is translated
directly from the source.
-/

namespace SSR

/-- A Python-level exception, as needed by the scripts' error flow. -/
inductive PyErr where
  | typeError
  | keyError
  | indexError
  | other (msg : String)
deriving DecidableEq, Repr

/-- A point correspondence between two sections: source (sx, sy) and
target (tx, ty) coordinates, as stored in a pointmatches CSV row. -/
structure PointMatch where
  sx : ℚ
  sy : ℚ
  tx : ℚ
  ty : ℚ
deriving DecidableEq, Repr

/-- Which correspondence-extraction method produced a result: the dense
block matcher, or the sparse SIFT feature fallback. -/
inductive MatchMethod where
  | dense
  | sift
deriving DecidableEq, Repr

/-! ## Graph building: which section pairs are matched and connected

`pointmatchingTasks` (serial_section_registration.py lines 196-200) and the
connection loop of `makeLinkedTiles` (lines 225-231) iterate the same double
loop: `for i in xrange(len(filepaths) - n_adjacent): for inc in
xrange(1, n_adjacent + 1)`, producing the pair (i, i + inc).  Python's
`xrange` of a negative bound is empty, which coincides with truncated `Nat`
subtraction here. -/

/-- The list of section-index pairs for which `pointmatchingTasks` yields an
`extractBlockMatches` task, in yield order. -/
def pointmatchingPairs (count n_adjacent : Nat) : List (Nat × Nat) :=
  (List.range (count - n_adjacent)).flatMap (fun i =>
    (List.range n_adjacent).map (fun k => (i, i + (k + 1))))

/-- The list of tile-index pairs that `makeLinkedTiles` connects (each
`tiles[i].connect(tiles[i + inc], pointmatches)` is a reciprocal
connection); same loop bounds as `pointmatchingPairs`. -/
def linkedTilePairs (count n_adjacent : Nat) : List (Nat × Nat) :=
  (List.range (count - n_adjacent)).flatMap (fun i =>
    (List.range n_adjacent).map (fun k => (i, i + (k + 1))))

/-! ## Correspondence extraction: extractBlockMatches (lines 119-193) -/

/-- A minimal filesystem model: association list of (path, contents).
Only existence checks and writes are needed by the scripts. -/
structure FS where
  files : List (String × String)
deriving DecidableEq, Repr

/-- Embeds `os.path.exists`: whether a path is present in the filesystem. -/
def FS.pathExists (fs : FS) (p : String) : Bool :=
  fs.files.any (fun pc => decide (pc.1 = p))

/-- Writing a file at a path (a fresh write shadows any older entry). -/
def FS.write (fs : FS) (p c : String) : FS :=
  ⟨(p, c) :: fs.files⟩

/-- Characters of the last path component, reading a reversed character
list up to the first slash. -/
def lastComponentRev : List Char → List Char
  | [] => []
  | c :: cs => if c = '/' then [] else c :: lastComponentRev cs

/-- Embeds `os.path.basename` for Unix paths: the part after the last slash. -/
def basename (p : String) : String :=
  String.mk (lastComponentRev p.data.reverse).reverse

/-- The pointmatches CSV key built at line 129:
`os.path.join(csvDir, basename(filepath1) + '.' + basename(filepath2) + ".pointmatches.csv")`. -/
def csvPath (csvDir filepath1 filepath2 : String) : String :=
  csvDir ++ "/" ++ basename filepath1 ++ "." ++ basename filepath2 ++ ".pointmatches.csv"

/-- Serialization of a correspondence set into CSV file contents.
Modelled from the spec: `savePointMatches` (lib/features.py, not under
src/) persists the chosen correspondence set as a tabular file whose rows
are the point coordinates. -/
def serializeMatches (ms : List PointMatch) : String :=
  String.intercalate "\n" (ms.map (fun m =>
    toString m.sx ++ "," ++ toString m.sy ++ "," ++ toString m.tx ++ "," ++ toString m.ty))

/-- The acceptance threshold of line 163:
`max(20, len(sourcePoints) / 5) / 2` with Python 2 integer division. -/
def fallbackThreshold (sourcePointCount : Nat) : Nat :=
  (max 20 (sourcePointCount / 5)) / 2

/-- Python 2 `traceback.format_exception` requires the three positional
arguments (etype, value, tb); the call at line 193 passes none, so it
raises a TypeError instead of returning formatted lines. -/
def formatExceptionZeroArgs : Except PyErr (List String) :=
  .error .typeError

/-- The body of `extractBlockMatches` between loading and saving
(lines 133-183): run the dense block matcher; if it yields fewer matches
than the threshold, fall back to SIFT matching on the full-resolution
images.  The dense matcher and the SIFT matcher are external black boxes,
passed in as their outcomes (normal result or raised exception). -/
def extractBody (sourcePointCount : Nat)
    (denseOutcome siftOutcome : Except PyErr (List PointMatch)) :
    Except PyErr (MatchMethod × List PointMatch) :=
  match denseOutcome with
  | .error e => .error e
  | .ok sourceMatches =>
    if sourceMatches.length < fallbackThreshold sourcePointCount then
      match siftOutcome with
      | .error e => .error e
      | .ok siftMatches => .ok (.sift, siftMatches)
    else
      .ok (.dense, sourceMatches)

/-- Embeds `extractBlockMatches` (lines 119-193): skip immediately when the
pointmatches CSV for the pair already exists (lines 128-131); otherwise run
the body under `try`, persist the chosen matches on success, and on any
exception enter the `except:` clause, whose own
`traceback.format_exception()` call raises a TypeError (line 193).
Returns the filesystem after the call together with the call's outcome. -/
def extractBlockMatches (fs : FS) (csvDir filepath1 filepath2 : String)
    (sourcePointCount : Nat)
    (denseOutcome siftOutcome : Except PyErr (List PointMatch)) :
    FS × Except PyErr Unit :=
  let csvpath := csvPath csvDir filepath1 filepath2
  if fs.pathExists csvpath then
    (fs, .ok ())
  else
    match extractBody sourcePointCount denseOutcome siftOutcome with
    | .ok r => (fs.write csvpath (serializeMatches r.2), .ok ())
    | .error _ =>
      match formatExceptionZeroArgs with
      | .ok _ => (fs, .ok ())
      | .error e => (fs, .error e)

/-! ## Global optimization: align (lines 235-265) -/

/-- A 2D translation-only transformation model (mpicbg
`TranslationModel2D`), which every fresh tile carries (line 224); a fresh
model is the identity translation. -/
structure TranslationModel2D where
  tx : ℚ
  ty : ℚ
deriving DecidableEq, Repr

/-- The identity translation, the state of every tile's model before
optimization. -/
def TranslationModel2D.identity : TranslationModel2D := ⟨0, 0⟩

/-- The flat matrix row persisted per tile (lines 256-261): a
zero-initialized 3x4 double array (`nativeArray('d', [3, 4])`) into which
`tile.getModel().toMatrix(a)` writes the model's homogeneous-matrix rows
(for a 2D translation model: [1, 0, tx] and [0, 1, ty]), then the three
rows are concatenated (`a[0] + a[1] + a[2]`) into one 12-value row. -/
def toMatrixRow (m : TranslationModel2D) : List ℚ :=
  [1, 0, m.tx, 0,
   0, 1, m.ty, 0,
   0, 0, 0, 0]

/-- Line 245: `tc.fixTile(tiles[len(tiles) / 2])` — the sequence-middle
tile, with Python 2 integer division. -/
def fixedTileIndex (count : Nat) : Nat := count / 2

/-- Modelled from the spec: the optimizer kernel
(`tc.optimizeSilentlyConcurrent`, line 251) treats each tile's transform as
a free variable except the fixed reference tile, which it never touches.
The net effect of the iterations on each free tile is abstracted as an
oracle `update`; the fixed tile's model is returned unchanged. -/
def optimizeTiles (update : Nat → TranslationModel2D → TranslationModel2D)
    (fixedIdx : Nat) (tiles : List TranslationModel2D) : List TranslationModel2D :=
  (List.range tiles.length).map (fun i =>
    if i = fixedIdx then tiles.getD i TranslationModel2D.identity
    else update i (tiles.getD i TranslationModel2D.identity))

/-- The persisted-matrices state for the run identity "matrices" in csvDir.
Modelled from the spec: `loadMatrices`/`saveMatrices` (lib/registration.py,
not under src/) retrieve or store one flat matrix row per tile under that
name; `loadMatrices` yields nothing when no file has been stored. -/
structure AlignState where
  persisted : Option (List (List ℚ))
deriving DecidableEq, Repr

/-- Python truthiness of the `loadMatrices` result at line 238
(`if matrices: return matrices`): a missing file or an empty list is
falsy. -/
def pyTruthy : Option (List (List ℚ)) → Bool
  | none => false
  | some ms => !ms.isEmpty

/-- The matrices computed by the optimization branch of `align`
(lines 241-261): one tile per filepath, each starting at the identity
translation, the sequence-middle tile fixed, tiles optimized, then every
model flattened to its matrix row, in tile order. -/
def alignMatrices (filepaths : List String)
    (update : Nat → TranslationModel2D → TranslationModel2D) : List (List ℚ) :=
  let tiles := filepaths.map (fun _ => TranslationModel2D.identity)
  (optimizeTiles update (fixedTileIndex tiles.length) tiles).map toMatrixRow

/-- Embeds `align` (lines 235-265): return previously persisted matrices when
`loadMatrices` yields a truthy result; otherwise build the linked tiles,
fix the middle tile (`tiles[len(tiles) / 2]`, an IndexError on an empty
sequence), optimize, persist the fresh matrices immediately
(`saveMatrices`), and return them. -/
def align (filepaths : List String)
    (update : Nat → TranslationModel2D → TranslationModel2D) (st : AlignState) :
    Except PyErr (List (List ℚ) × AlignState) :=
  if pyTruthy st.persisted then
    .ok (st.persisted.getD [], st)
  else if filepaths.isEmpty then
    .error .indexError
  else
    let matrices := alignMatrices filepaths update
    .ok (matrices, ⟨some matrices⟩)

/-! ## Aligned volume view: TranslatedSectionGet (lines 268-285) -/

/-- A decoded 2D image: dimensions and a pixel lookup (the ArrayImg that
line 276 wraps from `loadImpMem(self.filepaths[index])`). -/
structure ImageF where
  width : Nat
  height : Nat
  pix : Nat → Nat → Nat

/-- Placeholder image for out-of-range list access. -/
def defaultImage : ImageF := ⟨0, 0, fun _ _ => 0⟩

/-- Python `int()` applied to a number truncates toward zero
(T-division of numerator by denominator). -/
def pyInt (q : ℚ) : Int := q.num.tdiv q.den

/-- Line 278, x component: `dx = int(matrix[2] + 0.5)` — entry 2 of the
tile's flat row-major 2D affine row is its x translation. -/
def dxOf (matrix : List ℚ) : Int := pyInt (matrix.getD 2 0 + 1 / 2)

/-- Line 278, y component: `dy = int(matrix[5] + 0.5)` — entry 5 of the
tile's flat row-major 2D affine row is its y translation. -/
def dyOf (matrix : List ℚ) : Int := pyInt (matrix.getD 5 0 + 1 / 2)

/-- Embeds `Views.extendZero(img)` sampled at integer coordinates: the raw pixel
value inside the image bounds, zero everywhere outside. -/
def extendZeroPix (img : ImageF) (x y : Int) : Nat :=
  if 0 ≤ x ∧ x < img.width ∧ 0 ≤ y ∧ y < img.height then
    img.pix x.toNat y.toNat
  else 0

/-- The state of the `TranslatedSectionGet` cell loader (lines 268-273):
the per-section images, the per-section flat matrix rows, and the canonical
cell (tile) dimensions. -/
structure TranslatedSectionGet where
  imgs : List ImageF
  matrices : List (List ℚ)
  cellW : Nat
  cellH : Nat

/-- Embeds `TranslatedSectionGet.get(index)` (lines 275-285): take the raw image
and matrix row for `index`, shift the zero-extended image by the
integer-rounded translation
(`Views.interval(Views.translate(Views.extendZero(img), [dx, dy]), aimg)`),
and copy the canonical cell interval into the cell buffer: the returned
block holds img(x - dx, y - dy) where defined and zero elsewhere. -/
def TranslatedSectionGet.get (g : TranslatedSectionGet) (index : Nat) :
    List (List Nat) :=
  let img := g.imgs.getD index defaultImage
  let matrix := g.matrices.getD index []
  let dx := dxOf matrix
  let dy := dyOf matrix
  (List.range g.cellH).map (fun (y : Nat) =>
    (List.range g.cellW).map (fun (x : Nat) =>
      extendZeroPix img ((x : Int) - dx) ((y : Int) - dy)))

/-! ## IsoView pipeline: iterTMs (isoview.py lines 62-81) -/

/-- Strip a literal character sequence from the front of a character list,
returning the remainder on success. -/
def stripLit : List Char → List Char → Option (List Char)
  | [], s => some s
  | _ :: _, [] => none
  | l :: ls, c :: cs => if c = l then stripLit ls cs else none

/-- Split off the longest run of decimal digits at the front. -/
def takeDigits : List Char → List Char × List Char
  | [] => ([], [])
  | c :: cs =>
    if c.isDigit then
      let p := takeDigits cs
      (c :: p.1, p.2)
    else ([], c :: cs)

/-- Decimal value of a digit run. -/
def digitsVal (ds : List Char) : Nat :=
  ds.foldl (fun a c => a * 10 + (c.toNat - 48)) 0

/-- The KLB camera filename pattern of isoview.py line 57,
regular expression SPM00_TM digits _CM (digits) _CHN0 [01] .klb, anchored
at both ends: on a match, the captured camera index digits as a number;
otherwise none. -/
def matchCameraPattern (name : String) : Option Nat :=
  match stripLit "SPM00_TM".data name.data with
  | none => none
  | some rest1 =>
    let tm := takeDigits rest1
    if tm.1.isEmpty then none else
    match stripLit "_CM".data tm.2 with
    | none => none
    | some rest2 =>
      let cm := takeDigits rest2
      if cm.1.isEmpty then none else
      match stripLit "_CHN0".data cm.2 with
      | none => none
      | some rest3 =>
        match rest3 with
        | [] => none
        | c :: rest4 =>
          if c = '0' ∨ c = '1' then
            match stripLit ".klb".data rest4 with
            | some [] => some (digitsVal cm.1)
            | _ => none
          else none

/-- Python dict lookup `filepaths[camera_index]` over an association
list. -/
def dictFind (d : List (Nat × List String)) (k : Nat) : Option (List String) :=
  match d with
  | [] => none
  | kv :: rest => if kv.1 = k then some kv.2 else dictFind rest k

/-- Replacing a dict binding (the in-place list append seen from the
dict). -/
def dictSet (d : List (Nat × List String)) (k : Nat) (v : List String) :
    List (Nat × List String) :=
  match d with
  | [] => []
  | kv :: rest => if kv.1 = k then (k, v) :: rest else kv :: dictSet rest k v

/-- Embeds `os.path.join` with Unix separators. -/
def osJoin (a b : String) : String := a ++ "/" ++ b

/-- The per-folder body of `iterTMs` (isoview.py lines 67-74): start from
the empty dict `filepaths = {}`; for each directory entry matching the
camera pattern, execute `filepaths[camera_index].append(path)`.  In
Python 2, reading a dict at an unbound key raises KeyError, and nothing in
the loop ever binds a key, so the append line raises as soon as any entry
matches. -/
def iterTMsFolder (srcDir dirname : String) (filenames : List String) :
    Except PyErr (List (Nat × List String)) :=
  filenames.foldlM (fun d filename =>
    match matchCameraPattern filename with
    | none => .ok d
    | some camera_index =>
      match dictFind d camera_index with
      | none => .error .keyError
      | some vs =>
        .ok (dictSet d camera_index (vs ++ [osJoin (osJoin srcDir dirname) filename]))) []

/-- Embeds `dirname.startswith("TM00")` (line 65). -/
def startsWithTM00 (dirname : String) : Bool :=
  (stripLit "TM00".data dirname.data).isSome

/-- Embeds `iterTMs` (lines 62-74) consumed over a source-directory listing; a
directory is a pair (name, entries), the listing taken sorted as given.
Folders not starting with "TM00" are skipped; each remaining folder runs
the per-folder body, and consumption (such as the validation loop at
lines 77-81) stops at the first raised exception. -/
def iterTMs (srcDir : String) (dirs : List (String × List String)) :
    Except PyErr (List (List (Nat × List String))) :=
  (dirs.filter (fun d => startsWithTM00 d.1)).foldlM
    (fun acc d => (iterTMsFolder srcDir d.1 d.2).map (fun fp => acc ++ [fp])) []

end SSR

namespace SSR

theorem align_optimize_eq (filepaths : List String)
    (update : Nat → TranslationModel2D → TranslationModel2D) (st : AlignState)
    (h1 : st.persisted = none) (h2 : filepaths ≠ []) :
    align filepaths update st =
      .ok (alignMatrices filepaths update, ⟨some (alignMatrices filepaths update)⟩) := by
  cases filepaths with
  | nil => exact absurd rfl h2
  | cons f fl => simp [align, pyTruthy, h1]

theorem alignMatrices_length (filepaths : List String)
    (update : Nat → TranslationModel2D → TranslationModel2D) :
    (alignMatrices filepaths update).length = filepaths.length := by
  simp [alignMatrices, optimizeTiles]

theorem alignMatrices_getElem? (filepaths : List String)
    (update : Nat → TranslationModel2D → TranslationModel2D) (i : Nat)
    (h : i < filepaths.length) :
    (alignMatrices filepaths update)[i]? =
      some (toMatrixRow (if i = filepaths.length / 2 then TranslationModel2D.identity
                         else update i TranslationModel2D.identity)) := by
  have hlen : (filepaths.map (fun _ => TranslationModel2D.identity)).length
      = filepaths.length := by simp
  have hget : (filepaths.map (fun _ => TranslationModel2D.identity)).getD i
      TranslationModel2D.identity = TranslationModel2D.identity := by
    rw [List.getD_eq_getElem?_getD, List.getElem?_map]
    cases filepaths[i]? <;> rfl
  simp only [alignMatrices, optimizeTiles, hlen, fixedTileIndex]
  rw [List.getElem?_map, List.getElem?_map, List.getElem?_range h]
  simp [hget]

theorem iterTMsFolder_ok (srcDir dirname : String) (filenames : List String)
    (h : ∀ f ∈ filenames, matchCameraPattern f = none) :
    iterTMsFolder srcDir dirname filenames = .ok [] := by
  unfold iterTMsFolder
  induction filenames with
  | nil => rfl
  | cons f fs ih =>
    have hf : matchCameraPattern f = none := h f (List.mem_cons_self f fs)
    simp only [List.foldlM_cons, hf]
    exact ih (fun g hg => h g (List.mem_cons_of_mem f hg))

theorem iterTMsFolder_err (srcDir dirname : String) (filenames : List String)
    (h : ∃ f ∈ filenames, (matchCameraPattern f).isSome) :
    iterTMsFolder srcDir dirname filenames = .error .keyError := by
  unfold iterTMsFolder
  induction filenames with
  | nil => simp at h
  | cons f fs ih =>
    by_cases hf : (matchCameraPattern f).isSome
    · obtain ⟨ci, hci⟩ := Option.isSome_iff_exists.mp hf
      simp only [List.foldlM_cons, hci, dictFind]
      rfl
    · have hfn : matchCameraPattern f = none := Option.not_isSome_iff_eq_none.mp hf
      simp only [List.foldlM_cons, hfn]
      apply ih
      obtain ⟨g, hg, hgs⟩ := h
      rcases List.mem_cons.mp hg with rfl | hmem
      · exact absurd hgs hf
      · exact ⟨g, hmem, hgs⟩

theorem iterTMs_fold_err (srcDir : String) :
    ∀ (L : List (String × List String)) (acc : List (List (Nat × List String))),
    (∃ d ∈ L, ∃ f ∈ d.2, (matchCameraPattern f).isSome) →
    L.foldlM (fun acc d => (iterTMsFolder srcDir d.1 d.2).map (fun fp => acc ++ [fp])) acc
      = .error .keyError := by
  intro L
  induction L with
  | nil => intro acc h; simp at h
  | cons d ds ih =>
    intro acc h
    by_cases hd : ∃ f ∈ d.2, (matchCameraPattern f).isSome
    · rw [List.foldlM_cons, iterTMsFolder_err srcDir d.1 d.2 hd]
      rfl
    · have hnone : ∀ f ∈ d.2, matchCameraPattern f = none := by
        intro f hf
        by_contra hne
        exact hd ⟨f, hf, Option.isSome_iff_ne_none.mpr hne⟩
      rw [List.foldlM_cons, iterTMsFolder_ok srcDir d.1 d.2 hnone]
      apply ih
      obtain ⟨e, he, hes⟩ := h
      rcases List.mem_cons.mp he with rfl | hmem
      · exact absurd hes hd
      · exact ⟨e, hmem, hes⟩

/-- C1 (amended): the pair (i, j) gets a point-match extraction task, and a
reciprocal tile connection, exactly when i + n_adjacent < count and
j - i ∈ 1..n_adjacent; the loops stop at i = count - n_adjacent - 1, so
pairs among the last n_adjacent sections (such as (count-2, count-1) when
n_adjacent ≥ 2) are never generated. -/
theorem pointmatching_pairs_exact (count n i j : Nat) :
    ((i, j) ∈ pointmatchingPairs count n ↔ i + n < count ∧ i < j ∧ j ≤ i + n) ∧
    linkedTilePairs count n = pointmatchingPairs count n := by
  refine ⟨?_, rfl⟩
  simp only [pointmatchingPairs, List.mem_flatMap, List.mem_map, List.mem_range,
    Prod.mk.injEq]
  constructor
  · rintro ⟨a, ha, k, hk, rfl, rfl⟩
    omega
  · rintro ⟨h1, h2, h3⟩
    exact ⟨i, by omega, j - i - 1, by omega, rfl, by omega⟩

/-- C1 witness: for 5 sections with n_adjacent = 3, the pair (0, 1)
satisfies the amended characterization and is generated. -/
theorem pointmatching_pairs_exact_witness :
    (0, 1) ∈ pointmatchingPairs 5 3 :=
  (pointmatching_pairs_exact 5 3 0 1).1.mpr (by decide)

/-- C2: with both matchers returning normally, the SIFT fallback result is
kept if and only if the dense block-matching result has fewer than
max(20, sourcePointCount / 5) / 2 matches (integer division); otherwise the
dense result is kept as the correspondence set. -/
theorem sift_fallback_iff (sourcePointCount : Nat) (d s : List PointMatch) :
    (extractBody sourcePointCount (.ok d) (.ok s) = .ok (.sift, s) ↔
      d.length < (max 20 (sourcePointCount / 5)) / 2) ∧
    (¬ d.length < (max 20 (sourcePointCount / 5)) / 2 →
      extractBody sourcePointCount (.ok d) (.ok s) = .ok (.dense, d)) := by
  have hthr : fallbackThreshold sourcePointCount = (max 20 (sourcePointCount / 5)) / 2 := rfl
  by_cases h : d.length < fallbackThreshold sourcePointCount
  · rw [hthr] at h
    simp [extractBody, fallbackThreshold, h]
  · rw [hthr] at h
    simp [extractBody, fallbackThreshold, h]

/-- C2 witness: 121 mesh source points give threshold
max(20, 121/5)/2 = 12; an empty dense result (0 < 12) triggers the SIFT
fallback and its matches are the ones kept. -/
theorem sift_fallback_iff_witness :
    extractBody 121 (.ok []) (.ok [⟨1, 2, 3, 4⟩]) = .ok (.sift, [⟨1, 2, 3, 4⟩]) :=
  (sift_fallback_iff 121 [] [⟨1, 2, 3, 4⟩]).1.mpr (by decide)

/-- C3: when the pointmatches CSV for the pair's key already exists,
`extractBlockMatches` returns at once: the filesystem is returned exactly
as it was (no recomputation, no write, persisted file byte-identical). -/
theorem extract_skips_existing (fs : FS) (csvDir filepath1 filepath2 : String)
    (sourcePointCount : Nat) (denseOutcome siftOutcome : Except PyErr (List PointMatch))
    (h : fs.pathExists (csvPath csvDir filepath1 filepath2) = true) :
    extractBlockMatches fs csvDir filepath1 filepath2 sourcePointCount
      denseOutcome siftOutcome = (fs, .ok ()) := by
  simp [extractBlockMatches, h]

/-- C3 witness: a filesystem already holding
csvs/a.tif.b.tif.pointmatches.csv is returned unchanged, whatever the
matcher outcomes would have been. -/
theorem extract_skips_existing_witness :
    extractBlockMatches ⟨[("csvs/a.tif.b.tif.pointmatches.csv", "stored")]⟩
      "csvs" "a.tif" "b.tif" 121 (.error (.other "load failed")) (.ok [])
      = (⟨[("csvs/a.tif.b.tif.pointmatches.csv", "stored")]⟩, .ok ()) :=
  extract_skips_existing _ _ _ _ _ _ _ (by decide)

/-- C4: evaluating `extractBlockMatches` at a pair whose extraction body
raises (here: the dense matcher raised after a failed image load) shows the
`except:` clause itself raising: `traceback.format_exception()` is called
with zero arguments (three are required), so a TypeError propagates out of
`extractBlockMatches` instead of the exception being caught and logged; the
pair is left without a persisted correspondence set. -/
theorem extract_handler_raises_typeError :
    extractBlockMatches ⟨[]⟩ "/groups/cardona/cardonalab/Albert/FIBSEM_L1116/csvs"
      "/groups/cardona/cardonalab/FIBSEM_L1116/a_InLens_raw.tif"
      "/groups/cardona/cardonalab/FIBSEM_L1116/b_InLens_raw.tif"
      121 (.error (.other "NullPointerException after failed image load")) (.ok [])
      = (⟨[]⟩, .error .typeError) := by
  rfl

/-- C5: when a persisted matrices file exists for the run identity (a
truthy, i.e. non-empty, `loadMatrices` result), `align` returns the loaded
matrices with the persistence state untouched and performs no optimization;
otherwise it optimizes, immediately persists the fresh matrices, and
returns exactly one matrix row per input tile, the i-th row being the
flattened model of tile i (original input order). -/
theorem align_resume_or_optimize (filepaths : List String)
    (update : Nat → TranslationModel2D → TranslationModel2D) (st : AlignState) :
    (∀ ms, st.persisted = some ms → ms ≠ [] →
      align filepaths update st = .ok (ms, st)) ∧
    (st.persisted = none → filepaths ≠ [] →
      align filepaths update st =
        .ok (alignMatrices filepaths update, ⟨some (alignMatrices filepaths update)⟩) ∧
      (alignMatrices filepaths update).length = filepaths.length ∧
      ∀ i, i < filepaths.length →
        (alignMatrices filepaths update)[i]? =
          some (toMatrixRow (if i = filepaths.length / 2 then TranslationModel2D.identity
                             else update i TranslationModel2D.identity))) := by
  constructor
  · intro ms hsome hne
    have htruthy : pyTruthy st.persisted = true := by
      rw [hsome]
      simpa [pyTruthy] using hne
    unfold align
    rw [htruthy, hsome]
    simp
  · intro h1 h2
    exact ⟨align_optimize_eq filepaths update st h1 h2,
           alignMatrices_length filepaths update,
           fun i hi => alignMatrices_getElem? filepaths update i hi⟩

/-- C5 witness: with matrices [[1, 2]] persisted, `align` returns them and
leaves the state as it was. -/
theorem align_resume_or_optimize_witness :
    align ["x.tif"] (fun _ m => m) ⟨some [[1, 2]]⟩ = .ok ([[1, 2]], ⟨some [[1, 2]]⟩) :=
  (align_resume_or_optimize ["x.tif"] (fun _ m => m) ⟨some [[1, 2]]⟩).1 [[1, 2]] rfl (by decide)

/-- C6: on the optimization path with a non-empty tile sequence, `align`
fixes exactly the sequence-middle tile, index count / 2 (a valid index),
and that tile's transform is excluded from the free variables of the
optimization: whatever the optimizer's update does to the free tiles, the
returned matrix row at index count / 2 is the untouched identity model. -/
theorem align_fixes_middle_tile (filepaths : List String)
    (update : Nat → TranslationModel2D → TranslationModel2D) (st : AlignState)
    (h1 : st.persisted = none) (h2 : filepaths ≠ []) :
    align filepaths update st =
      .ok (alignMatrices filepaths update, ⟨some (alignMatrices filepaths update)⟩) ∧
    fixedTileIndex filepaths.length = filepaths.length / 2 ∧
    filepaths.length / 2 < filepaths.length ∧
    (alignMatrices filepaths update)[filepaths.length / 2]? =
      some (toMatrixRow TranslationModel2D.identity) := by
  have hpos : 0 < filepaths.length := List.length_pos.mpr h2
  have hmid : filepaths.length / 2 < filepaths.length := by omega
  refine ⟨align_optimize_eq filepaths update st h1 h2, rfl, hmid, ?_⟩
  rw [alignMatrices_getElem? filepaths update _ hmid]
  simp

/-- C6 witness: with three tiles and an optimizer oracle that moves every
free tile to translation (9, 9), the returned row at index 3 / 2 = 1 is
still the identity matrix row. -/
theorem align_fixes_middle_tile_witness :
    (alignMatrices ["a.tif", "b.tif", "c.tif"] (fun _ _ => ⟨9, 9⟩))[1]? =
      some (toMatrixRow TranslationModel2D.identity) :=
  (align_fixes_middle_tile ["a.tif", "b.tif", "c.tif"] (fun _ _ => ⟨9, 9⟩) ⟨none⟩
    rfl (by decide)).2.2.2

/-- C8 (amended): each tile's transform for the 2D section series is a
translation-only affine model, but it is persisted as the flat row-major
flattening of a 3x4 matrix — one row of 12 values per tile, even in 2D —
and the persisted result is reloadable: a second `align` call on the
persisted state returns the same matrices without recomputation. -/
theorem align_persists_12_value_rows (filepaths : List String)
    (update : Nat → TranslationModel2D → TranslationModel2D) (st : AlignState)
    (h1 : st.persisted = none) (h2 : filepaths ≠ []) :
    align filepaths update st =
      .ok (alignMatrices filepaths update, ⟨some (alignMatrices filepaths update)⟩) ∧
    (alignMatrices filepaths update).length = filepaths.length ∧
    (∀ row ∈ alignMatrices filepaths update, row.length = 12) ∧
    align filepaths update ⟨some (alignMatrices filepaths update)⟩ =
      .ok (alignMatrices filepaths update, ⟨some (alignMatrices filepaths update)⟩) := by
  refine ⟨align_optimize_eq filepaths update st h1 h2,
          alignMatrices_length filepaths update, ?_, ?_⟩
  · intro row hrow
    obtain ⟨m, _, rfl⟩ := List.mem_map.mp
      (by simpa [alignMatrices] using hrow)
    simp [toMatrixRow]
  · have hne : alignMatrices filepaths update ≠ [] := by
      intro hnil
      have := alignMatrices_length filepaths update
      rw [hnil] at this
      exact h2 (List.length_eq_zero.mp this.symm)
    have htruthy : pyTruthy (some (alignMatrices filepaths update)) = true := by
      simpa [pyTruthy] using hne
    simp [align, htruthy]

/-- C8 witness: a two-tile run persists two rows of 12 values each, and a
repeat call on the persisted state returns those rows unchanged. -/
theorem align_persists_12_value_rows_witness :
    align ["s0.tif", "s1.tif"] (fun _ m => m)
      ⟨some (alignMatrices ["s0.tif", "s1.tif"] (fun _ m => m))⟩ =
      .ok (alignMatrices ["s0.tif", "s1.tif"] (fun _ m => m),
           ⟨some (alignMatrices ["s0.tif", "s1.tif"] (fun _ m => m))⟩) :=
  (align_persists_12_value_rows ["s0.tif", "s1.tif"] (fun _ m => m) ⟨none⟩
    rfl (by decide)).2.2.2

/-- C8 counterexample: in a concrete 2D run with a single section, the
persisted matrix row for the tile has 12 values, not the 6 parameters of a
2D affine that the claim attributes to the 2D series. -/
theorem persisted_row_not_6_values :
    align ["section1.tif"] (fun _ m => m) ⟨none⟩ =
      .ok ([toMatrixRow TranslationModel2D.identity],
           ⟨some [toMatrixRow TranslationModel2D.identity]⟩) ∧
    (toMatrixRow TranslationModel2D.identity).length = 12 ∧
    ¬ (toMatrixRow TranslationModel2D.identity).length = 6 := by
  refine ⟨rfl, rfl, by decide⟩

/-- C9: for a single-tile input the pair loops are empty (no connections),
the single tile is the fixed middle tile (index 1 / 2 = 0), and `align`
returns its transform unchanged — the identity matrix row — without
raising an error. -/
theorem align_single_tile_identity (f : String)
    (update : Nat → TranslationModel2D → TranslationModel2D) (st : AlignState)
    (h : st.persisted = none) :
    align [f] update st =
      .ok ([toMatrixRow TranslationModel2D.identity],
           ⟨some [toMatrixRow TranslationModel2D.identity]⟩) ∧
    (∀ n_adjacent, linkedTilePairs 1 n_adjacent = []) := by
  constructor
  · rw [align_optimize_eq [f] update st h (by simp)]
    have : alignMatrices [f] update = [toMatrixRow TranslationModel2D.identity] := by
      simp [alignMatrices, optimizeTiles, fixedTileIndex, List.range_succ]
    rw [this]
  · intro n
    cases n with
    | zero => rfl
    | succ m =>
      have hz : 1 - (m + 1) = 0 := by omega
      simp [linkedTilePairs, hz]

/-- C9 witness: a concrete one-section run, with an oracle that would move
any free tile, still returns the identity row and no error. -/
theorem align_single_tile_identity_witness :
    align ["solo.tif"] (fun _ _ => ⟨7, 8⟩) ⟨none⟩ =
      .ok ([toMatrixRow TranslationModel2D.identity],
           ⟨some [toMatrixRow TranslationModel2D.identity]⟩) :=
  (align_single_tile_identity "solo.tif" (fun _ _ => ⟨7, 8⟩) ⟨none⟩ rfl).1

/-- C7: for every tile index, `get` returns a block of exactly the
canonical cell dimensions (it is a total function — no exception), whose
pixel at (x, y) is the raw image's pixel at (x - dx, y - dy) when that
position lies inside the image, with dx, dy the integer-rounded translation
components (entries 2 and 5 of the tile's matrix row, each rounded via
`int(m + 0.5)`, discarding the sub-pixel part); every out-of-bounds
position — in particular whenever the translation exceeds the image
bounds — is zero-padded. -/
theorem translated_get_zero_pads (g : TranslatedSectionGet) (index : Nat) :
    (g.get index).length = g.cellH ∧
    (∀ row ∈ g.get index, row.length = g.cellW) ∧
    (∀ y x, y < g.cellH → x < g.cellW →
      ((g.get index).getD y []).getD x 0 =
        extendZeroPix (g.imgs.getD index defaultImage)
          ((x : Int) - dxOf (g.matrices.getD index []))
          ((y : Int) - dyOf (g.matrices.getD index []))) ∧
    (∀ y x, y < g.cellH → x < g.cellW →
      ((x : Int) - dxOf (g.matrices.getD index []) < 0 ∨
       ((g.imgs.getD index defaultImage).width : Int) ≤
         (x : Int) - dxOf (g.matrices.getD index []) ∨
       (y : Int) - dyOf (g.matrices.getD index []) < 0 ∨
       ((g.imgs.getD index defaultImage).height : Int) ≤
         (y : Int) - dyOf (g.matrices.getD index [])) →
      ((g.get index).getD y []).getD x 0 = 0) := by
  have hpoint : ∀ y x, y < g.cellH → x < g.cellW →
      ((g.get index).getD y []).getD x 0 =
        extendZeroPix (g.imgs.getD index defaultImage)
          ((x : Int) - dxOf (g.matrices.getD index []))
          ((y : Int) - dyOf (g.matrices.getD index [])) := by
    intro y x hy hx
    rw [TranslatedSectionGet.get]
    rw [List.getD_eq_getElem?_getD, List.getD_eq_getElem?_getD,
      List.getElem?_map, List.getElem?_range hy, Option.map_some', Option.getD_some,
      List.getElem?_map, List.getElem?_range hx, Option.map_some', Option.getD_some]
  refine ⟨by simp [TranslatedSectionGet.get], ?_, hpoint, ?_⟩
  · intro row hrow
    rw [TranslatedSectionGet.get] at hrow
    obtain ⟨y, _, rfl⟩ := List.mem_map.mp hrow
    simp
  · intro y x hy hx hout
    rw [hpoint y x hy hx, extendZeroPix, if_neg]
    omega

/-- C7 witness: a 4x3 image whose tile matrix carries a translation of
1000000 in x and -50 in y (both far beyond the image bounds); the block
pixel at (x, y) = (2, 1) matches the zero-extension equation — concretely,
it is zero-padded rather than an error. -/
theorem translated_get_zero_pads_witness :
    ((TranslatedSectionGet.get
        ⟨[⟨4, 3, fun x y => x + 10 * y⟩], [[1, 0, 1000000, 0, 0, -50]], 4, 3⟩
        0).getD 1 []).getD 2 0 =
      extendZeroPix
        ((TranslatedSectionGet.mk [⟨4, 3, fun x y => x + 10 * y⟩]
          [[1, 0, 1000000, 0, 0, -50]] 4 3).imgs.getD 0 defaultImage)
        ((2 : Int) - dxOf ((TranslatedSectionGet.mk [⟨4, 3, fun x y => x + 10 * y⟩]
          [[1, 0, 1000000, 0, 0, -50]] 4 3).matrices.getD 0 []))
        ((1 : Int) - dyOf ((TranslatedSectionGet.mk [⟨4, 3, fun x y => x + 10 * y⟩]
          [[1, 0, 1000000, 0, 0, -50]] 4 3).matrices.getD 0 [])) :=
  (translated_get_zero_pads
    ⟨[⟨4, 3, fun x y => x + 10 * y⟩], [[1, 0, 1000000, 0, 0, -50]], 4, 3⟩ 0).2.2.1
    1 2 (by decide) (by decide)

/-- C10: if any time-point folder (name starting with "TM00") in the
source listing holds at least one KLB file matching the camera filename
pattern, consuming `iterTMs` — as the folder-validation loop of
`deconvolveTimePoints` does — raises KeyError: the per-folder body reads
`filepaths[camera_index]` from a dict in which no key was ever bound, so
the pipeline cannot get past validation for any non-empty time-point
folder. -/
theorem iterTMs_raises_keyError (srcDir : String)
    (dirs : List (String × List String))
    (h : ∃ d ∈ dirs, startsWithTM00 d.1 = true ∧
      ∃ f ∈ d.2, (matchCameraPattern f).isSome) :
    iterTMs srcDir dirs = .error PyErr.keyError := by
  unfold iterTMs
  apply iterTMs_fold_err
  obtain ⟨d, hd, hstart, hf⟩ := h
  exact ⟨d, List.mem_filter.mpr ⟨hd, hstart⟩, hf⟩

/-- C10 witness: one time-point folder TM000000 holding the single camera
file SPM00_TM000000_CM01_CHN00.klb already makes iterTMs raise KeyError. -/
theorem iterTMs_raises_keyError_witness :
    iterTMs "/data" [("TM000000", ["SPM00_TM000000_CM01_CHN00.klb"])] =
      .error PyErr.keyError :=
  iterTMs_raises_keyError "/data" [("TM000000", ["SPM00_TM000000_CM01_CHN00.klb"])]
    ⟨("TM000000", ["SPM00_TM000000_CM01_CHN00.klb"]), by decide, by decide,
     "SPM00_TM000000_CM01_CHN00.klb", by decide, by decide⟩

/-- C1 counterexample: with 3 sections and n_adjacent = 2, the pair
(1, 2) = (count-2, count-1) satisfies k = 1 ≤ n_adjacent and i + k < count,
yet neither a point-matching task nor a tile connection is created for it:
the stage only generates the pairs (0,1) and (0,2). -/
theorem pointmatching_pairs_missing_last :
    pointmatchingPairs 3 2 = [(0, 1), (0, 2)] ∧
    (1, 2) ∉ pointmatchingPairs 3 2 ∧
    (1, 2) ∉ linkedTilePairs 3 2 ∧
    1 + 1 < 3 ∧ 1 ≤ 2 := by
  decide

end SSR
